import Mathlib

/-!
Verification of the commit-history widget (`src/components/git.tsx`).

The widget is a React component `GitHistory`. Its observable behaviour is
embedded shallowly:

* the fetch pipeline of `fetchCommits` (repo enumeration, per-repo commit
  fan-out, flatten / sort / truncate, state updates) becomes pure functions
  over explicit response values and an explicit widget-state record;
* the four render branches (`loading`, `error`, `minimized`, normal) become
  a `render` function producing a `View` record that lists which handlers
  and controls the branch attaches;
* the event handlers (`handleClickOutside`, `handleClose`, the Escape-key
  listener) become functions returning the number of `onClose` invocations
  the event causes;
* the fullscreen effect on `document.body.style` and the cosmetic blink
  timer become explicit state-transformers, with the timer periods as
  named constants.

JavaScript `Date` values are abstracted to their millisecond value
(`Date.prototype.getTime`), an integer; the ISO-string parsing performed by
`new Date(commit.commit.author.date)` is outside the modelled fragment, so
the `date` field carries the parsed millisecond value directly.
-/

namespace GitWidget

/-- A JS `Date`, abstracted to milliseconds since the epoch (`getTime()`). -/
abbrev DateMs := Int

/-- The `Commit` interface of git.tsx (lines 4-9). -/
structure Commit where
  id : String
  message : String
  repo : String
  timestamp : DateMs
deriving Repr, DecidableEq

/-- The `GitHubRepo` interface (lines 11-13). -/
structure GitHubRepo where
  full_name : String
deriving Repr, DecidableEq

/-- The `author` part of the `GitHubCommit` interface (lines 19-21); the
`date` string is abstracted to its parsed millisecond value. -/
structure GitHubCommitAuthor where
  date : DateMs
deriving Repr, DecidableEq

/-- The `commit` part of the `GitHubCommit` interface (lines 17-22). -/
structure GitHubCommitData where
  message : String
  author : GitHubCommitAuthor
deriving Repr, DecidableEq

/-- The `GitHubCommit` interface (lines 15-23). -/
structure GitHubCommit where
  sha : String
  commit : GitHubCommitData
deriving Repr, DecidableEq

/-- Outcome of one repository's commit fetch (lines 64-95): a thrown error
or a non-ok response (both funnel to an empty contribution), or an ok
response carrying the decoded list of commits. -/
inductive RepoCommitsResponse where
  | failure
  | ok (commits : List GitHubCommit)
deriving Repr, DecidableEq

/-- Outcome of the repository-list fetch (lines 39-59): a thrown error or
non-ok response (line 49), an ok response whose JSON is not an array
(line 57), or an ok response carrying the repository list. -/
inductive ReposResponse where
  | failure
  | okNonArray
  | okArray (repos : List GitHubRepo)
deriving Repr, DecidableEq

/-- The mapping of lines 83-88: one GitHub commit of repository
`repoName` becomes a display `Commit`. -/
def toCommit (repoName : String) (c : GitHubCommit) : Commit :=
  { id := c.sha
    message := c.commit.message
    repo := repoName
    timestamp := c.commit.author.date }

/-- One repository's contribution to `allCommits` (lines 62-96): a failed
or non-ok fetch contributes `[]`, an ok fetch contributes its commits
mapped through `toCommit`. -/
def repoResult (repo : GitHubRepo) (resp : RepoCommitsResponse) : List Commit :=
  match resp with
  | .failure => []
  | .ok cs => cs.map (toCommit repo.full_name)

/-- The sort order of the comparator on line 101
(`(a, b) => b.timestamp.getTime() - a.timestamp.getTime()`): `a` is placed
no later than `b` exactly when `b.timestamp ≤ a.timestamp`. -/
def tsGE (a b : Commit) : Prop := b.timestamp ≤ a.timestamp

instance : DecidableRel tsGE := fun a b =>
  inferInstanceAs (Decidable (b.timestamp ≤ a.timestamp))

instance : IsTotal Commit tsGE :=
  ⟨fun a b => (le_total a.timestamp b.timestamp).symm⟩

instance : IsTrans Commit tsGE :=
  ⟨fun _ _ _ hab hbc => le_trans hbc hab⟩

/-- Lines 99-102: flatten all per-repository results, sort descending by
timestamp, keep the first 25 (`.flat().sort(...).slice(0, 25)`). The JS
stable sort is modelled by insertion sort over `tsGE`. -/
def fetchPipeline (repos : List GitHubRepo)
    (fetchRepo : GitHubRepo → RepoCommitsResponse) : List Commit :=
  (List.insertionSort tsGE
    ((repos.map fun r => repoResult r (fetchRepo r)).flatten)).take 25

/-- The component-local state of `GitHistory` (lines 26-33). -/
structure WidgetState where
  commits : List Commit
  loading : Bool
  error : Option String
  isRefreshing : Bool
  isBlinking : Bool
  lastUpdated : DateMs
  isFullscreen : Bool
  isMinimized : Bool
deriving Repr, DecidableEq

/-- The `useState` initial values (lines 26-33); `lastUpdated` starts at
the mount-time clock value. -/
def initialState (mountTime : DateMs) : WidgetState :=
  { commits := []
    loading := true
    error := none
    isRefreshing := false
    isBlinking := false
    lastUpdated := mountTime
    isFullscreen := false
    isMinimized := false }

/-- One run of `fetchCommits` (lines 36-112) as a state transformer, the
network responses given as arguments. `setIsRefreshing(true)` runs first;
on a cycle-fatal outcome (repo-list failure or non-array payload) the
catch block sets the static error message and clears loading; on success
the commit list is replaced and loading cleared (no write to `error`). -/
def fetchCommitsCycle (reposResp : ReposResponse)
    (fetchRepo : GitHubRepo → RepoCommitsResponse)
    (s : WidgetState) : WidgetState :=
  match reposResp with
  | .failure =>
      { s with isRefreshing := true
               error := some "Failed to load commit history"
               loading := false }
  | .okNonArray =>
      { s with isRefreshing := true
               error := some "Failed to load commit history"
               loading := false }
  | .okArray repos =>
      { s with isRefreshing := true
               commits := fetchPipeline repos fetchRepo
               loading := false }

/-- The `setTimeout(() => setIsRefreshing(false), 1000)` at line 111. -/
def refreshingTimeoutFire (s : WidgetState) : WidgetState :=
  { s with isRefreshing := false }

/-- Which of the four render branches of `GitHistory` is taken. -/
inductive ViewKind where
  | loading
  | error
  | minimized
  | normal
deriving Repr, DecidableEq

/-- What a render branch attaches to the DOM: which dismissal handlers and
window controls exist, and which commit entries are shown. -/
structure View where
  kind : ViewKind
  /-- the backdrop div carries `onClick=\x7bhandleClickOutside\x7d` -/
  hasBackdropClickHandler : Bool
  /-- a fullscreen-toggle button is rendered -/
  hasFullscreenButton : Bool
  /-- the fullscreen-toggle button is rendered and not `disabled` -/
  fullscreenButtonEnabled : Bool
  /-- a close glyph wired to `handleClose` is rendered -/
  hasCloseButton : Bool
  /-- clicking the rendered panel runs `setIsMinimized(false)` -/
  hasUnminimizeClick : Bool
  /-- some rendered control runs `setIsMinimized(true)` -/
  hasMinimizeControl : Bool
  /-- the commit entries rendered in the content area -/
  renderedCommits : List Commit
deriving Repr, DecidableEq

/-- The render function of `GitHistory`: the branch order of lines
174-323 (`if (loading)`, then `if (error)`, then `if (isMinimized)`,
then the normal view).

* loading (lines 174-232): backdrop with `handleClickOutside`, a
  `disabled` fullscreen button, a close glyph, skeleton rows only;
* error (lines 234-249): a static panel with no click handler, no
  buttons and no commit entries;
* minimized (lines 251-260): a small panel whose click runs
  `setIsMinimized(false)`;
* normal (lines 262-323): backdrop with `handleClickOutside`, an enabled
  fullscreen toggle, a close glyph, and the commit list.

No branch renders a control that sets `isMinimized` to `true`. -/
def render (s : WidgetState) : View :=
  if s.loading then
    { kind := .loading
      hasBackdropClickHandler := true
      hasFullscreenButton := true
      fullscreenButtonEnabled := false
      hasCloseButton := true
      hasUnminimizeClick := false
      hasMinimizeControl := false
      renderedCommits := [] }
  else if s.error.isSome then
    { kind := .error
      hasBackdropClickHandler := false
      hasFullscreenButton := false
      fullscreenButtonEnabled := false
      hasCloseButton := false
      hasUnminimizeClick := false
      hasMinimizeControl := false
      renderedCommits := [] }
  else if s.isMinimized then
    { kind := .minimized
      hasBackdropClickHandler := false
      hasFullscreenButton := false
      fullscreenButtonEnabled := false
      hasCloseButton := false
      hasUnminimizeClick := true
      hasMinimizeControl := false
      renderedCommits := [] }
  else
    { kind := .normal
      hasBackdropClickHandler := true
      hasFullscreenButton := true
      fullscreenButtonEnabled := true
      hasCloseButton := true
      hasUnminimizeClick := false
      hasMinimizeControl := false
      renderedCommits := s.commits }

/-- A React mouse event, reduced to the identities of its `target` and
`currentTarget` DOM nodes. -/
structure MouseEvent where
  target : Nat
  currentTarget : Nat
deriving Repr, DecidableEq

/-- A keyboard event, reduced to its `key` field. -/
structure KeyboardEvent where
  key : String
deriving Repr, DecidableEq

/-- `handleClickOutside` (lines 142-149), as the number of `onClose`
invocations the click causes: one exactly when a callback was supplied
and `e.target === e.currentTarget`. -/
def handleClickOutside (hasOnClose : Bool) (e : MouseEvent) : Nat :=
  if hasOnClose && (e.target == e.currentTarget) then 1 else 0

/-- `handleClose` (lines 151-155), as the number of `onClose` invocations
a click of the close glyph causes. -/
def handleClose (hasOnClose : Bool) : Nat :=
  if hasOnClose then 1 else 0

/-- `handleEscapeKey` (lines 159-165), the document-level keydown
listener, as the number of `onClose` invocations one keydown causes. -/
def handleEscapeKey (hasOnClose : Bool) (e : KeyboardEvent) : Nat :=
  if e.key == "Escape" then (if hasOnClose then 1 else 0) else 0

/-- `document.body.style`, split into the `overflow` property the
fullscreen effect writes and every other document-level style. -/
structure BodyStyle where
  overflow : String
  otherStyles : List (String × String)
deriving Repr, DecidableEq

/-- The body of the fullscreen effect (lines 129-135): `overflow` becomes
`"hidden"` while fullscreen and `"auto"` otherwise. -/
def fullscreenEffect (isFullscreen : Bool) (b : BodyStyle) : BodyStyle :=
  if isFullscreen then { b with overflow := "hidden" }
  else { b with overflow := "auto" }

/-- The cleanup of the fullscreen effect (lines 137-139), run on unmount
and before each re-run: `overflow` becomes `"auto"`. -/
def fullscreenEffectCleanup (b : BodyStyle) : BodyStyle :=
  { b with overflow := "auto" }

/-- The period of the cosmetic blink interval (line 118). -/
def blinkIntervalMs : Nat := 3000

/-- The delay of the blink-off timeout (line 117). -/
def blinkOffDelayMs : Nat := 1000

/-- The period of the poll interval (line 121). -/
def fetchIntervalMs : Nat := 300000

/-- The blink-interval callback (lines 114-117): turn the blink indicator
on and refresh the last-updated label with the current wall clock. -/
def blinkIntervalFire (now : DateMs) (s : WidgetState) : WidgetState :=
  { s with isBlinking := true, lastUpdated := now }

/-- The blink-off timeout callback (line 117). -/
def blinkTimeoutFire (s : WidgetState) : WidgetState :=
  { s with isBlinking := false }

/-- Strict descent of the timestamps along a commit list. -/
def StrictDescByTimestamp (l : List Commit) : Prop :=
  l.Chain' fun a b => b.timestamp < a.timestamp

instance (l : List Commit) : Decidable (StrictDescByTimestamp l) :=
  inferInstanceAs (Decidable (l.Chain' _))

/-- A one-repository scenario whose commit fetch returns two commits with
equal timestamps. -/
def tieRepos : List GitHubRepo := [{ full_name := "a/x" }]

/-- The commit responses of the tie scenario. -/
def tieFetch : GitHubRepo → RepoCommitsResponse := fun _ =>
  .ok [{ sha := "c1", commit := { message := "m1", author := { date := 5 } } },
       { sha := "c2", commit := { message := "m2", author := { date := 5 } } }]

/-- C1 counterexample: with two commits sharing a timestamp, the committed
list is not sorted strictly descending by timestamp, so the claim's
conjunction fails at this concrete input. -/
theorem C1_counterexample :
    ¬ ((fetchPipeline tieRepos tieFetch).length ≤ 25 ∧
       StrictDescByTimestamp (fetchPipeline tieRepos tieFetch)) := by
  have hval : fetchPipeline tieRepos tieFetch =
      [{ id := "c1", message := "m1", repo := "a/x", timestamp := 5 },
       { id := "c2", message := "m2", repo := "a/x", timestamp := 5 }] := by
    rfl
  intro h
  have h2 := h.2
  rw [hval] at h2
  simp [StrictDescByTimestamp] at h2

/-- C1 (amended): for every collection of per-repository commit results,
the committed list has at most 25 entries and is sorted descending by
timestamp with ties allowed (non-increasing). -/
theorem C1_pipeline_bounded_and_sorted (repos : List GitHubRepo)
    (fetchRepo : GitHubRepo → RepoCommitsResponse) :
    (fetchPipeline repos fetchRepo).length ≤ 25 ∧
    List.Sorted tsGE (fetchPipeline repos fetchRepo) := by
  constructor
  · simp [fetchPipeline]
  · exact List.Pairwise.sublist (List.take_sublist 25 _)
      (List.sorted_insertionSort tsGE _)

/-- The two-repository scenario of C2: repository `nameA` fails, every
other repository answers with the commit list `csB`. -/
def failAElseOk (nameA : String) (csB : List GitHubCommit) :
    GitHubRepo → RepoCommitsResponse :=
  fun r => if r.full_name = nameA then .failure else .ok csB

/-- C2: when repository A's commit fetch fails and repository B's succeeds
with 3 commits, the cycle ends without entering the error state and the
committed list is exactly B's 3 commits; a failing repository always
contributes an empty result. -/
theorem C2_partial_failure_tolerance (nameA nameB : String)
    (csB : List GitHubCommit) (t0 : DateMs)
    (hne : nameA ≠ nameB) (h3 : csB.length = 3) :
    (∀ r : GitHubRepo, repoResult r RepoCommitsResponse.failure = []) ∧
    (fetchCommitsCycle (.okArray [{ full_name := nameA }, { full_name := nameB }])
        (failAElseOk nameA csB) (initialState t0)).error = none ∧
    List.Perm
      (fetchCommitsCycle (.okArray [{ full_name := nameA }, { full_name := nameB }])
        (failAElseOk nameA csB) (initialState t0)).commits
      (csB.map (toCommit nameB)) ∧
    (fetchCommitsCycle (.okArray [{ full_name := nameA }, { full_name := nameB }])
        (failAElseOk nameA csB) (initialState t0)).commits.length = 3 := by
  have hcommits :
      (fetchCommitsCycle (.okArray [{ full_name := nameA }, { full_name := nameB }])
        (failAElseOk nameA csB) (initialState t0)).commits =
      List.insertionSort tsGE (csB.map (toCommit nameB)) := by
    have hlen : (List.insertionSort tsGE (csB.map (toCommit nameB))).length ≤ 25 := by
      simp [h3]
    simp [fetchCommitsCycle, fetchPipeline, failAElseOk, repoResult,
      if_neg (Ne.symm hne), List.take_of_length_le hlen]
  refine ⟨fun r => rfl, rfl, ?_, ?_⟩
  · rw [hcommits]
    exact List.perm_insertionSort tsGE _
  · rw [hcommits]
    simp [h3]

/-- A concrete list of three commit payloads for the C2 witness. -/
def threeCommits : List GitHubCommit :=
  [{ sha := "s1", commit := { message := "one", author := { date := 30 } } },
   { sha := "s2", commit := { message := "two", author := { date := 10 } } },
   { sha := "s3", commit := { message := "three", author := { date := 20 } } }]

/-- C2 witness at a concrete two-repository input. -/
theorem C2_partial_failure_tolerance_witness :
    ("a/x" : String) ≠ "b/y" ∧ threeCommits.length = 3 ∧
    ((∀ r : GitHubRepo, repoResult r RepoCommitsResponse.failure = []) ∧
     (fetchCommitsCycle (.okArray [{ full_name := "a/x" }, { full_name := "b/y" }])
        (failAElseOk "a/x" threeCommits) (initialState 0)).error = none ∧
     List.Perm
       (fetchCommitsCycle (.okArray [{ full_name := "a/x" }, { full_name := "b/y" }])
          (failAElseOk "a/x" threeCommits) (initialState 0)).commits
       (threeCommits.map (toCommit "b/y")) ∧
     (fetchCommitsCycle (.okArray [{ full_name := "a/x" }, { full_name := "b/y" }])
        (failAElseOk "a/x" threeCommits) (initialState 0)).commits.length = 3) :=
  ⟨by decide, rfl,
   C2_partial_failure_tolerance "a/x" "b/y" threeCommits 0 (by decide) rfl⟩

/-- C3: an ok repository-list response whose payload is not an array
aborts the cycle: the state gets the generic static error message, loading
is cleared, the commit list is untouched, and the widget renders the error
view with no commit entries. -/
theorem C3_non_array_is_cycle_fatal
    (fetchRepo : GitHubRepo → RepoCommitsResponse) (s : WidgetState) :
    (fetchCommitsCycle .okNonArray fetchRepo s).error =
      some "Failed to load commit history" ∧
    (fetchCommitsCycle .okNonArray fetchRepo s).loading = false ∧
    (fetchCommitsCycle .okNonArray fetchRepo s).commits = s.commits ∧
    (render (fetchCommitsCycle .okNonArray fetchRepo s)).kind = ViewKind.error ∧
    (render (fetchCommitsCycle .okNonArray fetchRepo s)).renderedCommits = [] := by
  simp [fetchCommitsCycle, render]

/-- A commit fetch answering every repository with an empty ok response. -/
def emptyFetch : GitHubRepo → RepoCommitsResponse := fun _ => .ok []

/-- C4 counterexample: after a failed cycle, a later successful cycle does
not clear the error state — the error message survives the success and the
widget still renders the error view. -/
theorem C4_counterexample :
    (fetchCommitsCycle (.okArray [{ full_name := "a/x" }]) emptyFetch
        (fetchCommitsCycle .failure emptyFetch (initialState 0))).error =
      some "Failed to load commit history" ∧
    (render (fetchCommitsCycle (.okArray [{ full_name := "a/x" }]) emptyFetch
        (fetchCommitsCycle .failure emptyFetch (initialState 0)))).kind =
      ViewKind.error := by
  decide

/-- C4 (amended): a successful cycle updates the commit list and clears
the loading state but leaves the error state untouched, so an error set by
an earlier failed cycle persists and the widget stays in the error view. -/
theorem C4_success_preserves_error (repos : List GitHubRepo)
    (fetchRepo : GitHubRepo → RepoCommitsResponse) (s : WidgetState)
    (msg : String) (h : s.error = some msg) :
    (fetchCommitsCycle (.okArray repos) fetchRepo s).loading = false ∧
    (fetchCommitsCycle (.okArray repos) fetchRepo s).commits =
      fetchPipeline repos fetchRepo ∧
    (fetchCommitsCycle (.okArray repos) fetchRepo s).error = some msg ∧
    (render (fetchCommitsCycle (.okArray repos) fetchRepo s)).kind =
      ViewKind.error := by
  simp [fetchCommitsCycle, render, h]

/-- C4 witness at a concrete errored state. -/
theorem C4_success_preserves_error_witness :
    ({ initialState 0 with error := some "boom" } : WidgetState).error =
      some "boom" ∧
    ((fetchCommitsCycle (.okArray []) emptyFetch
        { initialState 0 with error := some "boom" }).loading = false ∧
     (fetchCommitsCycle (.okArray []) emptyFetch
        { initialState 0 with error := some "boom" }).commits =
       fetchPipeline [] emptyFetch ∧
     (fetchCommitsCycle (.okArray []) emptyFetch
        { initialState 0 with error := some "boom" }).error = some "boom" ∧
     (render (fetchCommitsCycle (.okArray []) emptyFetch
        { initialState 0 with error := some "boom" })).kind = ViewKind.error) :=
  ⟨rfl, C4_success_preserves_error [] emptyFetch _ "boom" rfl⟩

/-- C5 counterexample: in the normal view no rendered control enters the
minimized view, and in the loading view the fullscreen button is rendered
but disabled — so neither the normal→minimized transition nor a
fetch-state-independent fullscreen toggle exists. -/
theorem C5_counterexample :
    (render { commits := [], loading := false, error := none,
              isRefreshing := false, isBlinking := false, lastUpdated := 0,
              isFullscreen := false, isMinimized := false }).kind =
      ViewKind.normal ∧
    (render { commits := [], loading := false, error := none,
              isRefreshing := false, isBlinking := false, lastUpdated := 0,
              isFullscreen := false, isMinimized := false }).hasMinimizeControl =
      false ∧
    (render (initialState 0)).kind = ViewKind.loading ∧
    (render (initialState 0)).hasFullscreenButton = true ∧
    (render (initialState 0)).fullscreenButtonEnabled = false := by
  decide

/-- C5 (amended): no user interaction can enter the minimized view; a
click in the minimized view (reachable only with loading done, no error
and `isMinimized` set) returns to normal; and the fullscreen toggle is
enabled exactly in the normal view — disabled while loading, absent in the
error and minimized views. -/
theorem C5_view_transitions (s : WidgetState) :
    (render s).hasMinimizeControl = false ∧
    ((render s).hasUnminimizeClick = true ↔
      s.loading = false ∧ s.error = none ∧ s.isMinimized = true) ∧
    ((render s).fullscreenButtonEnabled = true ↔
      s.loading = false ∧ s.error = none ∧ s.isMinimized = false) := by
  obtain ⟨c, l, e, ir, ib, lu, f, m⟩ := s
  cases l <;> cases e <;> cases m <;> simp [render]

/-- C5 witness: the minimized view does carry the back-to-normal click. -/
theorem C5_view_transitions_witness :
    (render { commits := [], loading := false, error := none,
              isRefreshing := false, isBlinking := false, lastUpdated := 0,
              isFullscreen := false, isMinimized := true }).hasUnminimizeClick =
      true :=
  ((C5_view_transitions _).2.1).mpr ⟨rfl, rfl, rfl⟩

/-- C6: with a supplied close callback, an Escape keydown, a click of the
close glyph, and a backdrop click (target equals currentTarget) each
invoke the callback exactly once. -/
theorem C6_dismissals_invoke_once (ke : KeyboardEvent) (me : MouseEvent)
    (hk : ke.key = "Escape") (hm : me.target = me.currentTarget) :
    handleEscapeKey true ke = 1 ∧ handleClose true = 1 ∧
    handleClickOutside true me = 1 := by
  refine ⟨?_, rfl, ?_⟩
  · simp [handleEscapeKey, hk]
  · simp [handleClickOutside, hm]

/-- C6 witness at concrete events. -/
theorem C6_dismissals_invoke_once_witness :
    ({ key := "Escape" } : KeyboardEvent).key = "Escape" ∧
    ({ target := 7, currentTarget := 7 } : MouseEvent).target =
      ({ target := 7, currentTarget := 7 } : MouseEvent).currentTarget ∧
    (handleEscapeKey true { key := "Escape" } = 1 ∧ handleClose true = 1 ∧
     handleClickOutside true { target := 7, currentTarget := 7 } = 1) :=
  ⟨rfl, rfl, C6_dismissals_invoke_once _ _ rfl rfl⟩

/-- C7: entering fullscreen sets body overflow to hidden; exiting and the
effect cleanup (run on unmount) set it to auto, which is not the locked
value; no other document-level style is touched by either. -/
theorem C7_fullscreen_scroll_lock (b : BodyStyle) (fs : Bool) :
    (fullscreenEffect true b).overflow = "hidden" ∧
    (fullscreenEffect false b).overflow = "auto" ∧
    (fullscreenEffectCleanup b).overflow = "auto" ∧
    ("auto" : String) ≠ "hidden" ∧
    (fullscreenEffect fs b).otherStyles = b.otherStyles ∧
    (fullscreenEffectCleanup b).otherStyles = b.otherStyles := by
  refine ⟨rfl, rfl, rfl, by decide, ?_, rfl⟩
  cases fs <;> rfl

/-- C8: the cosmetic interval has a 3000 ms period and for every widget
state — whatever the fetch outcome left in `error`, `loading` and
`commits` — its callback turns the blink indicator on and refreshes the
last-updated label, leaving the fetch state untouched; the scheduled
blink-off callback fires after 1000 ms and only clears the indicator. -/
theorem C8_blink_timer_cosmetic (s : WidgetState) (now : DateMs) :
    blinkIntervalMs = 3000 ∧ blinkOffDelayMs = 1000 ∧
    (blinkIntervalFire now s).isBlinking = true ∧
    (blinkIntervalFire now s).lastUpdated = now ∧
    (blinkIntervalFire now s).error = s.error ∧
    (blinkIntervalFire now s).loading = s.loading ∧
    (blinkIntervalFire now s).commits = s.commits ∧
    (blinkTimeoutFire s).isBlinking = false ∧
    (blinkTimeoutFire s).error = s.error ∧
    (blinkTimeoutFire s).loading = s.loading ∧
    (blinkTimeoutFire s).lastUpdated = s.lastUpdated :=
  ⟨rfl, rfl, rfl, rfl, rfl, rfl, rfl, rfl, rfl, rfl, rfl⟩

/-- C9: a click invokes the close callback exactly when a callback is
supplied and the click's target is the backdrop itself; clicks inside the
panel and clicks without a supplied callback never invoke it. -/
theorem C9_click_outside_guard (hasOnClose : Bool) (e : MouseEvent) :
    (handleClickOutside hasOnClose e = 1 ↔
      hasOnClose = true ∧ e.target = e.currentTarget) ∧
    (e.target ≠ e.currentTarget → handleClickOutside hasOnClose e = 0) ∧
    handleClickOutside false e = 0 := by
  refine ⟨?_, ?_, by simp [handleClickOutside]⟩
  · cases hasOnClose <;>
      by_cases h2 : e.target = e.currentTarget <;>
        simp [handleClickOutside, h2]
  · intro h
    simp [handleClickOutside, h]

/-- C9 witness at concrete clicks. -/
theorem C9_click_outside_guard_witness :
    handleClickOutside true { target := 0, currentTarget := 0 } = 1 ∧
    handleClickOutside true { target := 0, currentTarget := 1 } = 0 ∧
    handleClickOutside false { target := 2, currentTarget := 2 } = 0 :=
  ⟨(C9_click_outside_guard true _).1.mpr ⟨rfl, rfl⟩,
   (C9_click_outside_guard true _).2.1 (by decide),
   (C9_click_outside_guard false _).2.2⟩

/-- C10: in the error view (loading done, error set) no close glyph and no
backdrop click handler are rendered, so of the three dismissal mechanisms
only the document-level Escape listener — which stays attached and invokes
the supplied callback once per Escape keydown — can dismiss. -/
theorem C10_error_view_dismissal (s : WidgetState) (msg : String)
    (ke : KeyboardEvent) (herr : s.error = some msg)
    (hload : s.loading = false) (hk : ke.key = "Escape") :
    (render s).kind = ViewKind.error ∧
    (render s).hasCloseButton = false ∧
    (render s).hasBackdropClickHandler = false ∧
    (render s).hasUnminimizeClick = false ∧
    handleEscapeKey true ke = 1 := by
  simp [render, herr, hload, handleEscapeKey, hk]

/-- The widget state after a first failed cycle, used by the C10 witness. -/
def erroredState : WidgetState :=
  { initialState 0 with loading := false, error := some "Failed to load commit history" }

/-- C10 witness at a concrete errored state and a concrete Escape press. -/
theorem C10_error_view_dismissal_witness :
    erroredState.error = some "Failed to load commit history" ∧
    erroredState.loading = false ∧
    ({ key := "Escape" } : KeyboardEvent).key = "Escape" ∧
    ((render erroredState).kind = ViewKind.error ∧
     (render erroredState).hasCloseButton = false ∧
     (render erroredState).hasBackdropClickHandler = false ∧
     (render erroredState).hasUnminimizeClick = false ∧
     handleEscapeKey true { key := "Escape" } = 1) :=
  ⟨rfl, rfl, rfl,
   C10_error_view_dismissal erroredState "Failed to load commit history" _ rfl rfl rfl⟩

end GitWidget
